import Mathlib

/-!
Shallow embedding of the go-imap server core: the Selected-state command
handlers (CHECK, CLOSE, EXPUNGE, SEARCH, FETCH, STORE, COPY), the command
dispatcher, the unilateral-update fan-out filter, and the client's LOGOUT
command, together with theorems checking the specification's claims.

Backend behaviour (spec section 6 declares the mailbox backend out of scope)
is supplied as an oracle: each backend method of the selected mailbox is a
field of `MailboxBackend` giving the value that call returns. Handlers
return, next to the Go function's result, the list of backend calls they
performed and the untagged responses they emitted, so that the theorems can
speak about those observations.
-/

namespace GoImap

/-- Go `error` values are modelled by their message strings. -/
abbrev Err := String

/-- `server.ErrNoMailboxSelected` (src/unnamed/part_000:14). -/
def ErrNoMailboxSelected : Err := "No mailbox selected"

/-- `server.ErrMailboxReadOnly` (src/unnamed/part_000:15). -/
def ErrMailboxReadOnly : Err := "Mailbox opened in read-only mode"

/-- Outcome of running a Go function that returns an `error`: a normal
return (`ok` / `err`) or a runtime panic such as a nil-pointer
dereference. -/
inductive Outcome (α : Type) where
  | ok (a : α)
  | err (e : Err)
  | panicked (msg : String)
deriving DecidableEq, Repr

/-- Sequence sets (`*common.SeqSet`) are never inspected by the handlers
under study; they are modelled by their textual form. -/
abbrev SeqSet := String

/-- Messages streamed by `ListMessages` are never inspected by the
handlers under study; a message is modelled by its serialized form. -/
abbrev Msg := String

/-- The part of `common.SearchCriteria` used by the handlers under study
(`Expunge.Handle` builds `&common.SearchCriteria{Deleted: true}`). -/
structure SearchCriteria where
  deleted : Bool
deriving DecidableEq, Repr

/-- Backend behaviour of a `backend.Mailbox`: for each method, the result
the backend returns for the calls the handlers make. `Option Err` results
are `none` on success; `Except` results carry the returned value. -/
structure MailboxBackend where
  name : String
  checkResult : Option Err
  expungeResult : Option Err
  searchMessages : Bool → SearchCriteria → Except Err (List Nat)
  listMessages : Bool → SeqSet → List String → Except Err (List Msg)
  updateMessagesFlags : Bool → SeqSet → String → List String → Option Err
  copyMessages : Bool → SeqSet → String → Option Err

/-- A backend method invocation recorded by a handler, with its arguments. -/
inductive BackendCall where
  | check
  | expunge
  | searchMessages (uid : Bool) (criteria : SearchCriteria)
  | listMessages (uid : Bool) (seqset : SeqSet) (items : List String)
  | updateMessagesFlags (uid : Bool) (seqset : SeqSet) (op : String) (flags : List String)
  | copyMessages (uid : Bool) (seqset : SeqSet) (dest : String)
deriving DecidableEq, Repr

/-- `common.ConnState` values used by the engine. -/
inductive ConnState where
  | notAuthenticated
  | authenticated
  | selected
  | logout
deriving DecidableEq, Repr

/-- The fields of `server.Conn` the handlers under study read or write:
connection state, the selected mailbox handle and its read-only flag, the
authenticated user's username, the `silent` flag, and whether
`conn.Server.Updates` is non-nil. -/
structure Conn where
  state : ConnState
  mailbox : Option MailboxBackend
  mailboxReadOnly : Bool
  user : Option String
  silent : Bool
  serverUpdates : Bool

/-- Invariant (i) of spec section 3: a connection is in Selected state iff
its mailbox handle is non-nil. -/
def connInv (c : Conn) : Prop :=
  c.state = ConnState.selected ↔ c.mailbox.isSome = true

/-- Shallow embedding of `Check.Handle` (src/unnamed/part_000:30-39).
Returns the Go result and the backend calls performed. -/
def Check.Handle (conn : Conn) : Outcome Unit × List BackendCall :=
  match conn.mailbox with
  | none => (.err ErrNoMailboxSelected, [])
  | some mb =>
    if conn.mailboxReadOnly then (.err ErrMailboxReadOnly, [])
    else
      match mb.checkResult with
      | some e => (.err e, [.check])
      | none => (.ok (), [.check])

/-- A Go method call `m.Expunge()` through a possibly-nil mailbox handle:
calling a method through a nil handle is a runtime panic. -/
def expungeCall (m : Option MailboxBackend) : Outcome Unit :=
  match m with
  | none => .panicked "invalid memory address or nil pointer dereference"
  | some mb =>
    match mb.expungeResult with
    | some e => .err e
    | none => .ok ()

/-- Shallow embedding of `Close.Handle` (src/unnamed/part_000:45-59). The
source nils `conn.Mailbox` and clears the read-only flag first, and only
then calls `conn.Mailbox.Expunge()` — a method call through the handle it
just nilled. Returns the Go result, the updated connection, and the
backend calls performed. -/
def Close.Handle (conn : Conn) : Outcome Unit × Conn × List BackendCall :=
  if conn.mailbox.isNone then (.err ErrNoMailboxSelected, conn, [])
  else
    let conn := { conn with mailbox := none, mailboxReadOnly := false }
    match expungeCall conn.mailbox with
    | .panicked m => (.panicked m, conn, [])
    | .err e => (.err e, conn, [.expunge])
    | .ok _ => (.ok (), conn, [.expunge])

/-- A sample mailbox backend whose calls all succeed. -/
def mbInbox : MailboxBackend where
  name := "INBOX"
  checkResult := none
  expungeResult := none
  searchMessages := fun _ _ => .ok [2, 4, 7]
  listMessages := fun _ _ _ => .ok ["m1"]
  updateMessagesFlags := fun _ _ _ _ => none
  copyMessages := fun _ _ _ => none

/-- A sample connection in Selected state with `mbInbox` selected. -/
def connSel : Conn where
  state := ConnState.selected
  mailbox := some mbInbox
  mailboxReadOnly := false
  user := some "alice"
  silent := false
  serverUpdates := false

/-- C1: contrary to the claim, the CLOSE handler on a connection with a
non-nil mailbox handle clears the handle first and then calls `Expunge`
through it, so it always dereferences a nil handle (a runtime panic) and
never invokes the previously selected mailbox's `Expunge`. -/
theorem close_handle_nil_deref (conn : Conn) (mb : MailboxBackend)
    (h : conn.mailbox = some mb) :
    (Close.Handle conn).1 = .panicked "invalid memory address or nil pointer dereference" ∧
    (Close.Handle conn).2.2 = [] := by
  simp [Close.Handle, h, expungeCall]

/-- Witness for `close_handle_nil_deref` at the sample Selected
connection. -/
theorem close_handle_nil_deref_witness :
    (Close.Handle connSel).1 = .panicked "invalid memory address or nil pointer dereference" ∧
    (Close.Handle connSel).2.2 = [] :=
  close_handle_nil_deref connSel mbInbox rfl

/-- C2: contrary to the claim, running the CLOSE handler on a Selected
connection satisfying invariant (i) yields a connection violating it: the
state is still Selected (the handler never assigns the state) while the
mailbox handle has been nilled, and the handler panics rather than
completing successfully. -/
theorem close_handle_breaks_state_invariant :
    connInv connSel ∧
    ¬ connInv (Close.Handle connSel).2.1 ∧
    (Close.Handle connSel).2.1.state = ConnState.selected ∧
    (Close.Handle connSel).2.1.mailbox = none ∧
    (Close.Handle connSel).1 ≠ .ok () := by
  refine ⟨⟨fun _ => rfl, fun _ => rfl⟩, fun h => ?_, rfl, rfl, by decide⟩
  exact Bool.noConfusion (h.mp rfl)

/-- The search criteria `&common.SearchCriteria{Deleted: true}` built by
`Expunge.Handle` (src/unnamed/part_000:78). -/
def deletedCriteria : SearchCriteria where
  deleted := true

/-- Shallow embedding of `Expunge.Handle` (src/unnamed/part_000:65-113).
When the server has no update stream, the handler first searches the
`\Deleted` messages, then expunges, then feeds the recorded sequence
numbers to the EXPUNGE response from the last one to the first one.
Returns the Go result, the backend calls performed, and the sequence
numbers of the emitted untagged EXPUNGE responses in emission order. -/
def Expunge.Handle (conn : Conn) : Outcome Unit × List BackendCall × List Nat :=
  match conn.mailbox with
  | none => (.err ErrNoMailboxSelected, [], [])
  | some mb =>
    if conn.mailboxReadOnly then (.err ErrMailboxReadOnly, [], [])
    else
      -- `seqnums` is computed only when `conn.Server.Updates == nil`
      let searchStep : Except Err (List Nat × List BackendCall) :=
        if conn.serverUpdates then .ok ([], [])
        else
          match mb.searchMessages false deletedCriteria with
          | .error e => .error e
          | .ok seqnums => .ok (seqnums, [.searchMessages false deletedCriteria])
      match searchStep with
      | .error e => (.err e, [.searchMessages false deletedCriteria], [])
      | .ok (seqnums, calls) =>
        match mb.expungeResult with
        | some e => (.err e, calls ++ [.expunge], [])
        | none =>
          if conn.serverUpdates then (.ok (), calls ++ [.expunge], [])
          else (.ok (), calls ++ [.expunge], seqnums.reverse)

/-- C3: when the server has no update stream and the backend search and
expunge succeed, the EXPUNGE handler emits exactly the reverse of the
sequence-number list returned by `SearchMessages` (hence strictly
descending whenever that list is strictly ascending), and the emission
follows the backend calls search-then-expunge; with an update stream
present, the handler emits no EXPUNGE responses itself. -/
theorem expunge_handle_emission (conn : Conn) (mb : MailboxBackend)
    (seqnums : List Nat) (hmb : conn.mailbox = some mb)
    (hro : conn.mailboxReadOnly = false) :
    (conn.serverUpdates = false →
      mb.searchMessages false deletedCriteria = .ok seqnums →
      mb.expungeResult = none →
      (Expunge.Handle conn).2.2 = seqnums.reverse ∧
      (Expunge.Handle conn).2.1 = [.searchMessages false deletedCriteria, .expunge] ∧
      (List.Chain' (· < ·) seqnums → List.Chain' (· > ·) (Expunge.Handle conn).2.2)) ∧
    (conn.serverUpdates = true → (Expunge.Handle conn).2.2 = []) := by
  constructor
  · intro hupd hsearch hexp
    refine ⟨?_, ?_, ?_⟩ <;>
      simp [Expunge.Handle, hmb, hro, hupd, hsearch, hexp, List.chain'_reverse,
        Function.flip_def]
  · intro hupd
    cases hexp : mb.expungeResult <;>
      simp [Expunge.Handle, hmb, hro, hupd, hexp]

/-- Witness for `expunge_handle_emission`: on the sample connection the
backend reports `[2, 4, 7]` as `\Deleted` and the handler emits
`[7, 4, 2]` after searching and expunging. -/
theorem expunge_handle_emission_witness :
    (Expunge.Handle connSel).2.2 = [7, 4, 2] ∧
    (Expunge.Handle connSel).2.1 = [.searchMessages false deletedCriteria, .expunge] ∧
    List.Chain' (· > ·) (Expunge.Handle connSel).2.2 := by
  obtain ⟨h1, h2, h3⟩ :=
    (expunge_handle_emission connSel mbInbox [2, 4, 7] rfl rfl).1 rfl rfl rfl
  exact ⟨h1, h2, h3 (by norm_num [List.chain'_cons, List.chain'_singleton])⟩

/-- The fields of `commands.Search` read by the handler. -/
structure SearchCmd where
  criteria : SearchCriteria

/-- Shallow embedding of `Search.handle` (src/unnamed/part_000:119-131).
Returns the Go result, the backend calls performed, and the ids of the
emitted untagged SEARCH response. -/
def Search.handle (uid : Bool) (cmd : SearchCmd) (conn : Conn) :
    Outcome Unit × List BackendCall × List Nat :=
  match conn.mailbox with
  | none => (.err ErrNoMailboxSelected, [], [])
  | some mb =>
    match mb.searchMessages uid cmd.criteria with
    | .error e => (.err e, [.searchMessages uid cmd.criteria], [])
    | .ok ids => (.ok (), [.searchMessages uid cmd.criteria], ids)

/-- Shallow embedding of `Search.Handle` (src/unnamed/part_000:133-135). -/
def Search.Handle (cmd : SearchCmd) (conn : Conn) :
    Outcome Unit × List BackendCall × List Nat :=
  Search.handle false cmd conn

/-- Shallow embedding of `Search.UidHandle` (src/unnamed/part_000:137-139). -/
def Search.UidHandle (cmd : SearchCmd) (conn : Conn) :
    Outcome Unit × List BackendCall × List Nat :=
  Search.handle true cmd conn

/-- The fields of `commands.Fetch` read by the handler. -/
structure FetchCmd where
  seqSet : SeqSet
  items : List String

/-- Shallow embedding of `Fetch.handle` (src/unnamed/part_000:145-166).
Returns the Go result, the backend calls performed, and the messages
emitted as untagged FETCH responses. -/
def Fetch.handle (uid : Bool) (cmd : FetchCmd) (conn : Conn) :
    Outcome Unit × List BackendCall × List Msg :=
  match conn.mailbox with
  | none => (.err ErrNoMailboxSelected, [], [])
  | some mb =>
    match mb.listMessages uid cmd.seqSet cmd.items with
    | .error e => (.err e, [.listMessages uid cmd.seqSet cmd.items], [])
    | .ok msgs => (.ok (), [.listMessages uid cmd.seqSet cmd.items], msgs)

/-- Shallow embedding of `Fetch.Handle` (src/unnamed/part_000:168-170). -/
def Fetch.Handle (cmd : FetchCmd) (conn : Conn) :
    Outcome Unit × List BackendCall × List Msg :=
  Fetch.handle false cmd conn

/-- Shallow embedding of `Fetch.UidHandle` (src/unnamed/part_000:172-186):
scan the requested items for "UID" and append "UID" when it is absent,
then run the common handler with UIDs. -/
def Fetch.UidHandle (cmd : FetchCmd) (conn : Conn) :
    Outcome Unit × List BackendCall × List Msg :=
  let hasUid := cmd.items.contains "UID"
  let cmd := if !hasUid then { cmd with items := cmd.items ++ ["UID"] } else cmd
  Fetch.handle true cmd conn

/-- The fields of `commands.Copy` read by the handler. -/
structure CopyCmd where
  seqSet : SeqSet
  mailbox : String

/-- Shallow embedding of `Copy.handle` (src/unnamed/part_000:259-265). -/
def Copy.handle (uid : Bool) (cmd : CopyCmd) (conn : Conn) :
    Outcome Unit × List BackendCall :=
  match conn.mailbox with
  | none => (.err ErrNoMailboxSelected, [])
  | some mb =>
    match mb.copyMessages uid cmd.seqSet cmd.mailbox with
    | some e => (.err e, [.copyMessages uid cmd.seqSet cmd.mailbox])
    | none => (.ok (), [.copyMessages uid cmd.seqSet cmd.mailbox])

/-- Shallow embedding of `Copy.Handle` (src/unnamed/part_000:267-269). -/
def Copy.Handle (cmd : CopyCmd) (conn : Conn) : Outcome Unit × List BackendCall :=
  Copy.handle false cmd conn

/-- Shallow embedding of `Copy.UidHandle` (src/unnamed/part_000:271-273). -/
def Copy.UidHandle (cmd : CopyCmd) (conn : Conn) : Outcome Unit × List BackendCall :=
  Copy.handle true cmd conn

/-- Modelled from the spec: the constant `common.SilentOp` of the common
package (not in the snapshot); spec section 4.5 gives the STORE item shape
`{+|-}FLAGS[.SILENT]`. -/
def SilentOp : String := ".SILENT"

/-- Modelled from the spec: the `common.FlagsOp` constant `SetFlags` (the
common package is not in the snapshot; spec section 4.5: operation SET for
item `FLAGS`). -/
def SetFlags : String := "FLAGS"

/-- Modelled from the spec: the `common.FlagsOp` constant `AddFlags`
(operation ADD for item `+FLAGS`). -/
def AddFlags : String := "+FLAGS"

/-- Modelled from the spec: the `common.FlagsOp` constant `RemoveFlags`
(operation REMOVE for item `-FLAGS`). -/
def RemoveFlags : String := "-FLAGS"

/-- Go `strings.TrimSuffix`: drop `tail` from the end of `s` when `s` ends
with it. -/
def trimTail (s tail : String) : String :=
  if s.endsWith tail then s.dropRight tail.length else s

/-- A dynamic IMAP token value, modelling the `interface{}` held by
`commands.Store.Value` (spec section 9: tokens are a sum of atom-string,
list and nil). -/
inductive Field where
  | str (s : String)
  | fieldList (fields : List Field)
  | nil

/-- Modelled from the spec: `common.ParseStringList` (the common package
is not in the snapshot) converts a token list to a string list, failing on
any non-string element (spec section 4.5: "parse value as a list of flag
atoms"). -/
def ParseStringList : List Field → Except Err (List String)
  | [] => .ok []
  | .str s :: rest => (ParseStringList rest).map (s :: ·)
  | _ :: _ => .error "String list contains a non-string"

/-- The fields of `commands.Store` read by the handler. -/
structure StoreCmd where
  seqSet : SeqSet
  item : String
  value : Field

/-- Result of running `Store.handle`: the Go result, the updated
connection, the backend calls performed, and the value `conn.silent` held
while the backend `UpdateMessagesFlags` call ran (`none` when that call
was not reached). -/
structure StoreResult where
  outcome : Outcome Unit
  conn : Conn
  calls : List BackendCall
  silentDuringUpdate : Option Bool

/-- The `silent` flag computed by `Store.handle`
(src/unnamed/part_000:201): whether the STORE item string carries the
`.SILENT` ending. -/
def storeSilent (item : String) : Bool :=
  item.endsWith SilentOp

/-- The operation string computed by `Store.handle`
(src/unnamed/part_000:200-205): the STORE item with the `.SILENT` ending
split off. -/
def storeItemOp (item : String) : String :=
  if storeSilent item then trimTail item SilentOp else item

/-- Shallow embedding of `Store.handle` (src/unnamed/part_000:192-245):
check the preconditions, split the `.SILENT` ending off the item, parse
the flag list, set `conn.silent` for the duration of the backend flag
mutation, and on success synthesize a FETCH of the same sequence set with
items FLAGS (plus UID in the UID variant) when the server has no update
stream and the item was not silent. -/
def Store.handle (uid : Bool) (cmd : StoreCmd) (conn : Conn) : StoreResult :=
  match conn.mailbox with
  | none => ⟨.err ErrNoMailboxSelected, conn, [], none⟩
  | some mb =>
    if conn.mailboxReadOnly then ⟨.err ErrMailboxReadOnly, conn, [], none⟩
    else
      let silent := storeSilent cmd.item
      let item := storeItemOp cmd.item
      if item != SetFlags && item != AddFlags && item != RemoveFlags then
        ⟨.err "Unsupported STORE operation", conn, [], none⟩
      else
        match cmd.value with
        | .fieldList flagsList =>
          match ParseStringList flagsList with
          | .error e => ⟨.err e, conn, [], none⟩
          | .ok flags =>
            -- conn.silent = silent; UpdateMessagesFlags; conn.silent = false
            let conn1 : Conn := { conn with silent := silent }
            let updErr := mb.updateMessagesFlags uid cmd.seqSet item flags
            let silentDuring := conn1.silent
            let conn2 : Conn := { conn1 with silent := false }
            let updCall := BackendCall.updateMessagesFlags uid cmd.seqSet item flags
            match updErr with
            | some e => ⟨.err e, conn2, [updCall], some silentDuring⟩
            | none =>
              if !conn2.serverUpdates && !silent then
                let inner : FetchCmd :=
                  { seqSet := cmd.seqSet,
                    items := if uid then ["FLAGS", "UID"] else ["FLAGS"] }
                let fr := Fetch.handle uid inner conn2
                ⟨fr.1, conn2, updCall :: fr.2.1, some silentDuring⟩
              else ⟨.ok (), conn2, [updCall], some silentDuring⟩
        | _ => ⟨.err "Flags must be a list", conn, [], none⟩

/-- Shallow embedding of `Store.Handle` (src/unnamed/part_000:247-249). -/
def Store.Handle (cmd : StoreCmd) (conn : Conn) : StoreResult :=
  Store.handle false cmd conn

/-- Shallow embedding of `Store.UidHandle` (src/unnamed/part_000:251-253). -/
def Store.UidHandle (cmd : StoreCmd) (conn : Conn) : StoreResult :=
  Store.handle true cmd conn

/-- C5: with no selected mailbox every Selected-state handler returns
`ErrNoMailboxSelected` and performs no backend call; with a read-only
selected mailbox each mutating handler (CHECK, EXPUNGE, STORE) returns
`ErrMailboxReadOnly` and performs no backend call. -/
theorem handlers_preconditions (conn : Conn) (uid : Bool)
    (scmd : SearchCmd) (fcmd : FetchCmd) (stcmd : StoreCmd) (ccmd : CopyCmd) :
    (conn.mailbox = none →
      Check.Handle conn = (.err ErrNoMailboxSelected, []) ∧
      (Close.Handle conn).1 = .err ErrNoMailboxSelected ∧
      (Close.Handle conn).2.2 = [] ∧
      Expunge.Handle conn = (.err ErrNoMailboxSelected, [], []) ∧
      Search.handle uid scmd conn = (.err ErrNoMailboxSelected, [], []) ∧
      Fetch.handle uid fcmd conn = (.err ErrNoMailboxSelected, [], []) ∧
      (Store.handle uid stcmd conn).outcome = .err ErrNoMailboxSelected ∧
      (Store.handle uid stcmd conn).calls = [] ∧
      Copy.handle uid ccmd conn = (.err ErrNoMailboxSelected, [])) ∧
    (∀ mb, conn.mailbox = some mb → conn.mailboxReadOnly = true →
      Check.Handle conn = (.err ErrMailboxReadOnly, []) ∧
      Expunge.Handle conn = (.err ErrMailboxReadOnly, [], []) ∧
      (Store.handle uid stcmd conn).outcome = .err ErrMailboxReadOnly ∧
      (Store.handle uid stcmd conn).calls = []) := by
  constructor
  · intro hnone
    refine ⟨?_, ?_, ?_, ?_, ?_, ?_, ?_, ?_, ?_⟩ <;>
      simp [Check.Handle, Close.Handle, Expunge.Handle, Search.handle,
        Fetch.handle, Store.handle, Copy.handle, hnone]
  · intro mb hmb hro
    refine ⟨?_, ?_, ?_, ?_⟩ <;>
      simp [Check.Handle, Expunge.Handle, Store.handle, hmb, hro]

/-- A sample connection in Authenticated state with no selected mailbox. -/
def connNoMb : Conn where
  state := ConnState.authenticated
  mailbox := none
  mailboxReadOnly := false
  user := some "alice"
  silent := false
  serverUpdates := false

/-- A sample connection whose mailbox is opened read-only (EXAMINE). -/
def connRO : Conn where
  state := ConnState.selected
  mailbox := some mbInbox
  mailboxReadOnly := true
  user := some "alice"
  silent := false
  serverUpdates := false

/-- A sample STORE command adding the `\Seen` flag. -/
def stcmdSample : StoreCmd where
  seqSet := "1:2"
  item := "+FLAGS"
  value := .fieldList [.str "\x5cSeen"]

/-- Witness for `handlers_preconditions` at the sample no-mailbox and
read-only connections. -/
theorem handlers_preconditions_witness :
    (Check.Handle connNoMb = (.err ErrNoMailboxSelected, []) ∧
     (Close.Handle connNoMb).1 = .err ErrNoMailboxSelected ∧
     (Close.Handle connNoMb).2.2 = [] ∧
     Expunge.Handle connNoMb = (.err ErrNoMailboxSelected, [], []) ∧
     Search.handle false ⟨⟨true⟩⟩ connNoMb = (.err ErrNoMailboxSelected, [], []) ∧
     Fetch.handle false ⟨"1:3", ["FLAGS"]⟩ connNoMb = (.err ErrNoMailboxSelected, [], []) ∧
     (Store.handle false stcmdSample connNoMb).outcome = .err ErrNoMailboxSelected ∧
     (Store.handle false stcmdSample connNoMb).calls = [] ∧
     Copy.handle false ⟨"1:3", "Trash"⟩ connNoMb = (.err ErrNoMailboxSelected, [])) ∧
    (Check.Handle connRO = (.err ErrMailboxReadOnly, []) ∧
     Expunge.Handle connRO = (.err ErrMailboxReadOnly, [], []) ∧
     (Store.handle false stcmdSample connRO).outcome = .err ErrMailboxReadOnly ∧
     (Store.handle false stcmdSample connRO).calls = []) :=
  ⟨(handlers_preconditions connNoMb false ⟨⟨true⟩⟩ ⟨"1:3", ["FLAGS"]⟩ stcmdSample
      ⟨"1:3", "Trash"⟩).1 rfl,
   (handlers_preconditions connRO false ⟨⟨true⟩⟩ ⟨"1:3", ["FLAGS"]⟩ stcmdSample
      ⟨"1:3", "Trash"⟩).2 mbInbox rfl rfl⟩

/-- Removing every "UID" from an item list and appending a single "UID"
preserves the set of items whenever "UID" was present. -/
theorem filter_append_uid_toFinset (l : List String) (h : "UID" ∈ l) :
    ((l.filter (fun i => i != "UID")) ++ ["UID"]).toFinset = l.toFinset := by
  ext x
  by_cases hx : x = "UID" <;> simp [List.mem_filter, hx, h]

/-- C7: `Fetch.UidHandle` appends "UID" to the requested items exactly when
it is absent, and — provided the backend's `ListMessages` depends on the
item list only through its set of items — a UID FETCH whose items contain
"UID" yields the same outcome and emitted messages as the same request
with "UID" omitted. -/
theorem uid_fetch_items (cmd : FetchCmd) (conn : Conn) :
    (cmd.items.contains "UID" = true →
       Fetch.UidHandle cmd conn = Fetch.handle true cmd conn) ∧
    (cmd.items.contains "UID" = false →
       Fetch.UidHandle cmd conn =
         Fetch.handle true { cmd with items := cmd.items ++ ["UID"] } conn) ∧
    (∀ mb, conn.mailbox = some mb →
      (∀ u s l l', l.toFinset = l'.toFinset →
         mb.listMessages u s l = mb.listMessages u s l') →
      "UID" ∈ cmd.items →
      (Fetch.UidHandle cmd conn).1 =
        (Fetch.UidHandle { cmd with items := cmd.items.filter (fun i => i != "UID") } conn).1 ∧
      (Fetch.UidHandle cmd conn).2.2 =
        (Fetch.UidHandle { cmd with items := cmd.items.filter (fun i => i != "UID") } conn).2.2) := by
  refine ⟨fun hc => by simp [Fetch.UidHandle, hc, List.elem_iff.mp hc],
          fun hc => by
            have hni : "UID" ∉ cmd.items := by simpa using hc
            simp [Fetch.UidHandle, hc, hni],
          fun mb hmb hins hin => ?_⟩
  have hc : cmd.items.contains "UID" = true := List.elem_iff.mpr hin
  have hnm : "UID" ∉ cmd.items.filter (fun i => i != "UID") := by
    simp [List.mem_filter]
  have hcf : (cmd.items.filter (fun i => i != "UID")).contains "UID" = false := by
    cases hf : (cmd.items.filter (fun i => i != "UID")).contains "UID"
    · rfl
    · exact absurd (List.elem_iff.mp hf) hnm
  have hLM : mb.listMessages true cmd.seqSet cmd.items =
      mb.listMessages true cmd.seqSet
        ((cmd.items.filter (fun i => i != "UID")) ++ ["UID"]) :=
    hins true cmd.seqSet _ _ (filter_append_uid_toFinset cmd.items hin).symm
  have hunf1 : Fetch.UidHandle cmd conn = Fetch.handle true cmd conn := by
    simp [Fetch.UidHandle, hc, hin]
  have hunf2 :
      Fetch.UidHandle { cmd with items := cmd.items.filter (fun i => i != "UID") } conn =
        Fetch.handle true
          { cmd with items := (cmd.items.filter (fun i => i != "UID")) ++ ["UID"] } conn := by
    simp [Fetch.UidHandle, hcf, hnm]
  rw [hunf1, hunf2]
  simp only [Fetch.handle, hmb, hLM]
  cases mb.listMessages true cmd.seqSet
      ((cmd.items.filter (fun i => i != "UID")) ++ ["UID"]) <;> simp

/-- Witness for `uid_fetch_items`: on the sample connection, a UID FETCH
requesting `["UID", "FLAGS"]` behaves as the plain handler on the same
items, and emits the same messages as a UID FETCH requesting only
`["FLAGS"]`. -/
theorem uid_fetch_items_witness :
    (Fetch.UidHandle ⟨"1:3", ["UID", "FLAGS"]⟩ connSel =
       Fetch.handle true ⟨"1:3", ["UID", "FLAGS"]⟩ connSel) ∧
    (Fetch.UidHandle ⟨"1:3", ["UID", "FLAGS"]⟩ connSel).2.2 =
      (Fetch.UidHandle
          ⟨"1:3", (["UID", "FLAGS"] : List String).filter (fun i => i != "UID")⟩ connSel).2.2 := by
  refine ⟨(uid_fetch_items ⟨"1:3", ["UID", "FLAGS"]⟩ connSel).1 (by decide), ?_⟩
  exact ((uid_fetch_items ⟨"1:3", ["UID", "FLAGS"]⟩ connSel).2.2 mbInbox rfl
    (fun _ _ _ _ _ => rfl) (by decide)).2

/-- C8: whenever `Store.handle` reaches the backend flag mutation, the
connection's silent flag during the `UpdateMessagesFlags` call equals
whether the STORE item carried the `.SILENT` ending, and — whether that
call succeeds or fails — the handler leaves the connection equal to the
initial one except that the silent flag is false. -/
theorem store_silent_scoping (uid : Bool) (cmd : StoreCmd) (conn : Conn)
    (mb : MailboxBackend) (flagsList : List Field) (flags : List String)
    (hmb : conn.mailbox = some mb) (hro : conn.mailboxReadOnly = false)
    (hop : (storeItemOp cmd.item != SetFlags && storeItemOp cmd.item != AddFlags &&
            storeItemOp cmd.item != RemoveFlags) = false)
    (hval : cmd.value = .fieldList flagsList)
    (hparse : ParseStringList flagsList = .ok flags) :
    (Store.handle uid cmd conn).silentDuringUpdate =
      some (cmd.item.endsWith SilentOp) ∧
    (Store.handle uid cmd conn).conn = { conn with silent := false } := by
  cases hupd : mb.updateMessagesFlags uid cmd.seqSet (storeItemOp cmd.item) flags <;>
    simp [Store.handle, storeSilent, hmb, hro, hval, hparse, hop, hupd, apply_ite]

/-- Witness for `store_silent_scoping` at the sample STORE command on the
sample Selected connection. -/
theorem store_silent_scoping_witness :
    (Store.handle false stcmdSample connSel).silentDuringUpdate =
      some (stcmdSample.item.endsWith SilentOp) ∧
    (Store.handle false stcmdSample connSel).conn = { connSel with silent := false } :=
  store_silent_scoping false stcmdSample connSel mbInbox [.str "\x5cSeen"] ["\x5cSeen"]
    rfl rfl rfl rfl rfl

/-- C9: after a successful backend flag mutation, `Store.handle`
synthesizes a FETCH of the same sequence set with items FLAGS (plus UID in
the UID variant) exactly when the item was not `.SILENT` and the server
has no update stream; when the item was silent or an update stream exists,
the flag mutation is the only backend call. -/
theorem store_fetch_synthesis (uid : Bool) (cmd : StoreCmd) (conn : Conn)
    (mb : MailboxBackend) (flagsList : List Field) (flags : List String)
    (hmb : conn.mailbox = some mb) (hro : conn.mailboxReadOnly = false)
    (hop : (storeItemOp cmd.item != SetFlags && storeItemOp cmd.item != AddFlags &&
            storeItemOp cmd.item != RemoveFlags) = false)
    (hval : cmd.value = .fieldList flagsList)
    (hparse : ParseStringList flagsList = .ok flags)
    (hupd : mb.updateMessagesFlags uid cmd.seqSet (storeItemOp cmd.item) flags = none) :
    (conn.serverUpdates = false → cmd.item.endsWith SilentOp = false →
       (Store.handle uid cmd conn).calls =
         [.updateMessagesFlags uid cmd.seqSet (storeItemOp cmd.item) flags,
          .listMessages uid cmd.seqSet (if uid then ["FLAGS", "UID"] else ["FLAGS"])]) ∧
    (conn.serverUpdates = true ∨ cmd.item.endsWith SilentOp = true →
       (Store.handle uid cmd conn).calls =
         [.updateMessagesFlags uid cmd.seqSet (storeItemOp cmd.item) flags]) := by
  constructor
  · intro hsu hss
    cases hlm : mb.listMessages uid cmd.seqSet (if uid then ["FLAGS", "UID"] else ["FLAGS"]) <;>
      simp [Store.handle, Fetch.handle, storeSilent, hmb, hro, hval, hparse, hop,
        hupd, hsu, hss, hlm]
  · rintro (hsu | hss)
    · simp [Store.handle, storeSilent, hmb, hro, hval, hparse, hop, hupd, hsu]
    · simp [Store.handle, storeSilent, hmb, hro, hval, hparse, hop, hupd, hss]

/-- Witness for `store_fetch_synthesis`: the sample non-silent STORE on
the sample connection (no update stream) mutates the flags and then
fetches FLAGS over the same sequence set. -/
theorem store_fetch_synthesis_witness :
    (Store.handle false stcmdSample connSel).calls =
      [.updateMessagesFlags false stcmdSample.seqSet (storeItemOp stcmdSample.item)
         ["\x5cSeen"],
       .listMessages false stcmdSample.seqSet
         (if (false : Bool) then ["FLAGS", "UID"] else ["FLAGS"])] :=
  (store_fetch_synthesis false stcmdSample connSel mbInbox [.str "\x5cSeen"] ["\x5cSeen"]
     rfl rfl rfl rfl rfl rfl).1 rfl rfl

/-- Status response types (`common.OK`, `common.NO`, `common.BAD`,
`common.PREAUTH`, `common.BYE`; spec section 3). -/
inductive StatusType where
  | ok
  | no
  | bad
  | preauth
  | bye
deriving DecidableEq, Repr

/-- The fields of `common.StatusResp` built by the dispatcher. -/
structure StatusResp where
  tag : String
  typ : StatusType
  info : String
deriving DecidableEq, Repr

/-- Behaviour of one handler instance produced by a registry factory:
the outcome of `hdlr.Parse(cmd.Arguments)` and of `hdlr.Handle(conn)`
(`none` on success). -/
structure HandlerBeh where
  parseResult : Option Err
  handleResult : Option Err

/-- The fields of `common.Command` read by the dispatcher. -/
structure Command where
  tag : String
  name : String

/-- Shallow embedding of `Server.getCommandHandler`
(src/server/server.go:129-139): look the name up in the command registry
(`"Unknown command"` when absent), then parse the arguments. -/
def getCommandHandler (commands : String → Option HandlerBeh) (cmd : Command) :
    Except Err HandlerBeh :=
  match commands cmd.name with
  | none => .error "Unknown command"
  | some hdlr =>
    match hdlr.parseResult with
    | some e => .error e
    | none => .ok hdlr

/-- Shallow embedding of `Server.handleCommand`
(src/server/server.go:141-162): run the handler; handler success yields
`tag OK <NAME> completed`, handler failure yields `tag NO <message>`, and
a `getCommandHandler` error is returned to the caller. -/
def handleCommand (commands : String → Option HandlerBeh) (cmd : Command) :
    Except Err StatusResp :=
  match getCommandHandler commands cmd with
  | .error e => .error e
  | .ok hdlr =>
    match hdlr.handleResult with
    | some e => .ok { tag := cmd.tag, typ := .no, info := e }
    | none => .ok { tag := cmd.tag, typ := .ok, info := cmd.name ++ " completed" }

/-- The dispatch step of `Server.handleConn` (src/server/server.go:110-120)
for a line that parsed into a command: a `handleCommand` error becomes the
tagged status `tag BAD <message>`. -/
def dispatchCommand (commands : String → Option HandlerBeh) (cmd : Command) :
    StatusResp :=
  match handleCommand commands cmd with
  | .error e => { tag := cmd.tag, typ := .bad, info := e }
  | .ok res => res

/-- C4: the dispatcher emits `tag OK <NAME> completed` when the name
resolves, the arguments parse and the handler succeeds; `tag NO <message>`
on a handler error; and `tag BAD <message>` carrying the command's tag on
an unknown name or an argument-parse error. -/
theorem dispatch_status_cases (commands : String → Option HandlerBeh)
    (cmd : Command) :
    (commands cmd.name = none →
       dispatchCommand commands cmd =
         { tag := cmd.tag, typ := .bad, info := "Unknown command" }) ∧
    (∀ hdlr, commands cmd.name = some hdlr →
      (∀ e, hdlr.parseResult = some e →
         dispatchCommand commands cmd = { tag := cmd.tag, typ := .bad, info := e }) ∧
      (hdlr.parseResult = none →
        (hdlr.handleResult = none →
           dispatchCommand commands cmd =
             { tag := cmd.tag, typ := .ok, info := cmd.name ++ " completed" }) ∧
        (∀ e, hdlr.handleResult = some e →
           dispatchCommand commands cmd =
             { tag := cmd.tag, typ := .no, info := e }))) := by
  refine ⟨fun hreg => ?_, fun hdlr hreg => ⟨fun e hp => ?_, fun hp => ⟨fun hh => ?_,
    fun e hh => ?_⟩⟩⟩ <;>
    simp [dispatchCommand, handleCommand, getCommandHandler, hreg]
  · simp [*]
  · simp [*]
  · simp [*]

/-- A sample command registry holding a single always-succeeding NOOP. -/
def regSample : String → Option HandlerBeh :=
  fun name => if name = "NOOP" then some ⟨none, none⟩ else none

/-- Witness for `dispatch_status_cases`: dispatching `a1 NOOP` through
the sample registry completes with `a1 OK NOOP completed`, and an unknown
name yields `a2 BAD Unknown command`. -/
theorem dispatch_status_cases_witness :
    dispatchCommand regSample ⟨"a1", "NOOP"⟩ =
      { tag := "a1", typ := .ok, info := "NOOP" ++ " completed" } ∧
    dispatchCommand regSample ⟨"a2", "FOO"⟩ =
      { tag := "a2", typ := .bad, info := "Unknown command" } :=
  ⟨(((dispatch_status_cases regSample ⟨"a1", "NOOP"⟩).2 ⟨none, none⟩ rfl).2
      rfl).1 rfl,
   (dispatch_status_cases regSample ⟨"a2", "FOO"⟩).1 rfl⟩

/-- The filter `backend.Update{Username, Mailbox}` carried by every
backend update (empty string = wildcard). -/
structure Update where
  username : String
  mailbox : String

/-- Shallow embedding of the per-connection filter in the fan-out loop of
`Server.listenUpdates` (src/server/server.go:212-232): whether the
serialized update bytes are written to `conn`. `isFetch` tells whether the
built response is a `*responses.Fetch`. -/
def sendsUpdate (conn : Conn) (u : Update) (isFetch : Bool) : Bool :=
  if u.username != "" && (match conn.user with
      | none => true
      | some name => name != u.username) then false
  else if u.mailbox != "" && (match conn.mailbox with
      | none => true
      | some mb => mb.name != u.mailbox) then false
  else if conn.silent && isFetch then false
  else true

/-- The fan-out loop over the server's connection list: the connections
the update bytes are written to, in iteration order. -/
def fanOutTargets (conns : List Conn) (u : Update) (isFetch : Bool) : List Conn :=
  conns.filter (fun conn => sendsUpdate conn u isFetch)

/-- C6: the fan-out writes an update's bytes to a connection iff the
update's username is a wildcard or matches the connection's authenticated
user, its mailbox is a wildcard or matches the selected mailbox's name,
and the connection is not silenced against a FETCH response. -/
theorem fanout_filter_iff (conns : List Conn) (conn : Conn) (u : Update)
    (isFetch : Bool) :
    conn ∈ fanOutTargets conns u isFetch ↔
      conn ∈ conns ∧
      (u.username = "" ∨ conn.user = some u.username) ∧
      (u.mailbox = "" ∨ ∃ mb, conn.mailbox = some mb ∧ mb.name = u.mailbox) ∧
      ¬(conn.silent = true ∧ isFetch = true) := by
  rw [fanOutTargets, List.mem_filter]
  refine and_congr_right fun _ => ?_
  rw [sendsUpdate]
  rcases hu : conn.user with _ | name <;> rcases hm : conn.mailbox with _ | mb <;>
    by_cases hue : u.username = "" <;> by_cases hme : u.mailbox = "" <;>
    by_cases hs : conn.silent <;> by_cases hf : isFetch <;>
    simp [hu, hm, hue, hme, hs, hf]

/-- `common.StatusResp.Err` per spec section 3: a failure exactly when the
status type is NO or BAD, carrying the status text. -/
def StatusResp.errResult (s : StatusResp) : Option Err :=
  match s.typ with
  | .no => some s.info
  | .bad => some s.info
  | _ => none

/-- The field of `client.Client` read by `Logout`. -/
structure ClientSt where
  state : ConnState

/-- Shallow embedding of `Client.Logout` (src/client/cmd_any.go:59-76).
`execute` is the pair returned by `c.execute(cmd, nil)`: the final status
(possibly nil) and the transport error. The result pairs the returned
error with whether a LOGOUT command was executed on the connection. -/
def Client.Logout (c : ClientSt) (execute : Option StatusResp × Option Err) :
    Option Err × Bool :=
  if c.state = ConnState.logout then (some "Already logged out", false)
  else
    match execute.2 with
    | some e => (some e, true)
    | none =>
      match execute.1 with
      | some status => (status.errResult, true)
      | none => (none, true)

/-- C10: in the Logout state, `Client.Logout` returns "Already logged out"
without executing a command; in any other state it executes a LOGOUT
command and, when the execution itself does not fail, returns the final
status's error result, tolerating a nil status. -/
theorem client_logout_cases (c : ClientSt)
    (execute : Option StatusResp × Option Err) :
    (c.state = ConnState.logout →
       Client.Logout c execute = (some "Already logged out", false)) ∧
    (c.state ≠ ConnState.logout →
       (Client.Logout c execute).2 = true ∧
       (execute.2 = none →
          (Client.Logout c execute).1 =
            match execute.1 with
            | some status => status.errResult
            | none => none)) := by
  constructor
  · intro h
    simp [Client.Logout, h]
  · intro h
    constructor
    · rcases he : execute.2 with _ | e <;>
        rcases hs : execute.1 with _ | s <;>
        simp [Client.Logout, h, he, hs]
    · intro he
      rcases hs : execute.1 with _ | s <;> simp [Client.Logout, h, he, hs]

/-- Witness for `client_logout_cases`: a logged-out client refuses to
execute, and an authenticated client whose LOGOUT completes with a tagged
OK returns no error. -/
theorem client_logout_cases_witness :
    Client.Logout ⟨ConnState.logout⟩ (none, none) = (some "Already logged out", false) ∧
    (Client.Logout ⟨ConnState.authenticated⟩
        (some { tag := "a1", typ := .ok, info := "LOGOUT completed" }, none)).2 = true ∧
    (Client.Logout ⟨ConnState.authenticated⟩
        (some { tag := "a1", typ := .ok, info := "LOGOUT completed" }, none)).1 =
      StatusResp.errResult { tag := "a1", typ := .ok, info := "LOGOUT completed" } := by
  have h1 := (client_logout_cases ⟨ConnState.logout⟩ (none, none)).1 rfl
  have h2 := (client_logout_cases ⟨ConnState.authenticated⟩
    (some { tag := "a1", typ := .ok, info := "LOGOUT completed" }, none)).2 (by decide)
  exact ⟨h1, h2.1, h2.2 rfl⟩

end GoImap
